import Mathlib

/-!
Verification of the todo-app backend (FastAPI + SQLAlchemy + LangChain relay).

The embedding models:
* the `todos` table as a list of rows plus a fresh-id counter (the relational
  store assigns ascending primary keys and keeps insertion order unless a
  query sorts);
* each endpoint of `main.py` as a pure function from the request data and the
  database state to the new state and an HTTP-level response;
* FastAPI routing for the two DELETE endpoints, which are tried in
  registration order (`delete_todo` on the parametric path first, then
  `delete_all_todos` on the literal path);
* the LangChain relay of `langchain_utils.py`, with the remote chat model
  abstracted as a function from the prompt string to either a reply or an
  exception message, and the endpoint instrumented with the list of prompts
  actually sent to the model.

Calendar dates are modelled as integers (their ordinal), which preserves
everything the code uses about them: equality and ordering.
-/

namespace TodoApp

/-- A row of the `todos` table (class `Todo` in `main.py`):
`id` integer primary key, `text` string, `date` date, `completed` boolean
with column default `False`. -/
structure Todo where
  id : Nat
  text : String
  date : Int
  completed : Bool
  deriving Repr, DecidableEq

/-- The database state: the rows of the single `todos` table, in insertion
order, together with the next primary key the store will assign. -/
structure DB where
  rows : List Todo
  nextId : Nat
  deriving Repr, DecidableEq

/-- An `HTTPException` as raised by the endpoints: a status code and a
`detail` string. -/
structure HTTPError where
  status : Nat
  detail : String
  deriving Repr, DecidableEq

/-- Pydantic model `TodoCreate`: `text` and `date` required, `completed`
defaults to `False` when absent from the body. -/
structure TodoCreate where
  text : String
  date : Int
  completed : Bool := false
  deriving Repr, DecidableEq

/-- Pydantic model `TodoUpdate`: `text` and `date` required, `completed`
defaults to `False` when absent from the body. -/
structure TodoUpdate where
  text : String
  date : Int
  completed : Bool := false
  deriving Repr, DecidableEq

/-- A raw PUT request body, before pydantic validation: each field either
present or absent. -/
structure UpdateBody where
  text : Option String
  date : Option Int
  completed : Option Bool
  deriving Repr, DecidableEq

/-- Pydantic validation of a PUT body against `TodoUpdate`: `text` and
`date` are required (a missing one rejects the request with a validation
error), while a missing `completed` falls back to the declared default
`False`. -/
def parseTodoUpdate (b : UpdateBody) : Except String TodoUpdate :=
  match b.text, b.date with
  | some tx, some d => .ok { text := tx, date := d, completed := b.completed.getD false }
  | none, _ => .error "field required: text"
  | _, none => .error "field required: date"

/-- `create_todo` (POST `/todos/`): builds `Todo(text=todo.text, date=todo.date)`
— the `completed` field of the request model is not passed, so the column
default `False` applies — inserts it, commits, and returns the refreshed row. -/
def create_todo (todo : TodoCreate) (db : DB) : DB × Todo :=
  let db_todo : Todo := { id := db.nextId, text := todo.text, date := todo.date, completed := false }
  ({ rows := db.rows ++ [db_todo], nextId := db.nextId + 1 }, db_todo)

/-- `get_todos` (GET `/todos/`): `db.query(Todo).order_by(Todo.date.asc()).all()`,
the stored rows sorted by ascending date. -/
def get_todos (db : DB) : List Todo :=
  db.rows.mergeSort (fun a b => decide (a.date ≤ b.date))

/-- Replace the first row whose `id` matches with the given row, as mutating
the object returned by `.filter(Todo.id == todo_id).first()` does. -/
def replaceFirstById (todo_id : Nat) (t' : Todo) : List Todo → List Todo
  | [] => []
  | r :: rs => if r.id == todo_id then t' :: rs else r :: replaceFirstById todo_id t' rs

/-- `update_todo` (PUT `/todos/{todo_id}`): fetches the first row with the
given id; if none, raises 404 "To-do not found" leaving the table unchanged;
otherwise overwrites its `text`, `date` and `completed` with the body's
values, commits, and returns the refreshed row. -/
def update_todo (todo_id : Nat) (updated : TodoUpdate) (db : DB) : DB × Except HTTPError Todo :=
  match db.rows.find? (fun t => t.id == todo_id) with
  | none => (db, .error { status := 404, detail := "To-do not found" })
  | some db_todo =>
    let t' : Todo := { id := db_todo.id, text := updated.text, date := updated.date,
                       completed := updated.completed }
    ({ db with rows := replaceFirstById todo_id t' db.rows }, .ok t')

/-- Remove the first row whose `id` matches, as `db.delete(db_todo)` removes
the object returned by `.first()`. -/
def removeFirstById (todo_id : Nat) : List Todo → List Todo
  | [] => []
  | r :: rs => if r.id == todo_id then rs else r :: removeFirstById todo_id rs

/-- `delete_todo` (DELETE `/todos/{todo_id}`): fetches the first row with the
given id; if none, raises 404 "To-do not found"; otherwise deletes it,
commits, and returns a confirmation message. -/
def delete_todo (todo_id : Nat) (db : DB) : DB × Except HTTPError String :=
  match db.rows.find? (fun t => t.id == todo_id) with
  | none => (db, .error { status := 404, detail := "To-do not found" })
  | some _ =>
    ({ db with rows := removeFirstById todo_id db.rows },
     .ok ("To-do with ID " ++ toString todo_id ++ " deleted."))

/-- `delete_all_todos` (DELETE `/todos/all`): `db.query(Todo).delete()` removes
every row and returns the number removed, reported in the message. -/
def delete_all_todos (db : DB) : DB × String × Nat :=
  let deleted := db.rows.length
  ({ db with rows := [] }, "Deleted " ++ toString deleted ++ " to-do(s).", deleted)

/-! ### Routing of DELETE requests

`main.py` registers `delete_todo` on path `/todos/` followed by a `todo_id`
path parameter, and only afterwards registers `delete_all_todos` on the
literal path `/todos/all`.  FastAPI (Starlette) tries routes in registration
order and a path parameter matches every non-slash segment, so the per-id
route wins for every `DELETE /todos/<segment>` request, the literal `all`
included; the integer coercion of the captured segment happens after the
match and a non-integer segment yields a 422 validation error. -/

/-- The handler a `DELETE /todos/<segment>` request is dispatched to. -/
inductive DeleteHandler where
  | perId (todoId : Nat)
  | deleteAll
  | validationError
  deriving Repr, DecidableEq

/-- Accumulating decimal parse of a segment's characters: succeeds exactly
when every character is a digit. -/
def parseNatDigits : List Char → Nat → Option Nat
  | [], acc => some acc
  | c :: cs, acc =>
    if c.isDigit then parseNatDigits cs (acc * 10 + (c.toNat - 48)) else none

/-- The integer coercion FastAPI applies to the captured `todo_id` segment:
a nonempty all-digit segment yields its decimal value, anything else fails
validation. -/
def parseNatSegment (s : String) : Option Nat :=
  match s.data with
  | [] => none
  | cs => parseNatDigits cs 0

/-- Route a `DELETE /todos/<segment>` request: the per-id route is registered
first and its path parameter matches every segment, so the request goes to
`delete_todo` when the segment parses as an integer and to a 422 validation
error otherwise; `delete_all_todos` is never reached. -/
def routeDelete (segment : String) : DeleteHandler :=
  match parseNatSegment segment with
  | some n => .perId n
  | none => .validationError

/-- The HTTP response of a `DELETE /todos/<segment>` request. -/
inductive DeleteResponse where
  | ok (message : String)
  | notFound (detail : String)
  | unprocessable
  deriving Repr, DecidableEq

/-- Full handling of a `DELETE /todos/<segment>` request: dispatch through
`routeDelete`, then run the chosen endpoint on the database state. -/
def handleDeleteRequest (segment : String) (db : DB) : DB × DeleteResponse :=
  match routeDelete segment with
  | .perId n =>
    match delete_todo n db with
    | (db', .ok m) => (db', .ok m)
    | (db', .error e) => (db', .notFound e.detail)
  | .deleteAll =>
    match delete_all_todos db with
    | (db', msg, _) => (db', .ok msg)
  | .validationError => (db, .unprocessable)

/-! ### The insight relay (`langchain_utils.py` and POST `/todos/insights`)

The remote chat model is abstracted as a function from the prompt string to
either its textual reply or the message of the exception the call raised. -/

/-- The fixed instructional template `priority_prompt` of
`langchain_utils.py`, applied to the already formatted task block (the
template's one placeholder). -/
def priority_prompt (tasks : String) : String :=
  "\nYou are a productivity assistant. Your job is to help prioritize tasks.\n\nHere is a list of tasks:\n"
    ++ tasks
    ++ "\n\nReturn a numbered list of these tasks ordered from most to least important, with a short explanation for each.\nBe helpful and concise.\n"

/-- The bullet-point block `formatted_tasks` of `get_task_priorities`:
each task prefixed by a dash and a space, the lines joined with newlines. -/
def formatted_tasks (task_list : List String) : String :=
  String.intercalate "\n" (task_list.map (fun task => "- " ++ task))

/-- `get_task_priorities`: format the task list, fill the template, invoke
the chain on the resulting prompt and return the reply's content.  Besides
the model's answer it returns the list of prompts sent to the remote model,
so that theorems can speak about whether and with what the model was
invoked. -/
def get_task_priorities (llm : String → Except String String) (task_list : List String) :
    Except String String × List String :=
  let prompt := priority_prompt (formatted_tasks task_list)
  (llm prompt, [prompt])

/-- The HTTP response of POST `/todos/insights`. -/
inductive InsightResponse where
  | ok (insights : String)
  | badRequest (detail : String)
  | serverError (detail : String)
  deriving Repr, DecidableEq

/-- Outcome of a POST `/todos/insights` request: the response together with
the list of prompts that reached the remote model while handling it. -/
structure RelayOutcome where
  response : InsightResponse
  llmCalls : List String
  deriving Repr, DecidableEq

/-- `get_task_insights` (POST `/todos/insights`): an empty task list raises
400 "Task list cannot be empty" before any model call; otherwise the relay
is invoked and its reply wrapped in a 200 response, while any exception it
raises becomes a 500 response whose detail is the stringified exception. -/
def get_task_insights (llm : String → Except String String) (tasks : List String) :
    RelayOutcome :=
  if tasks.isEmpty then
    { response := .badRequest "Task list cannot be empty", llmCalls := [] }
  else
    match get_task_priorities llm tasks with
    | (.ok content, calls) => { response := .ok content, llmCalls := calls }
    | (.error e, calls) => { response := .serverError e, llmCalls := calls }

/-! ### Helper lemmas -/

/-- Replacing the first row with the matched id by a row carrying that same
id leaves the sequence of ids of the table unchanged. -/
theorem replaceFirstById_map_id (todo_id : Nat) (t' : Todo) (hid : t'.id = todo_id) :
    ∀ rows : List Todo, (replaceFirstById todo_id t' rows).map Todo.id = rows.map Todo.id := by
  intro rows
  induction rows with
  | nil => rfl
  | cons r rs ih =>
    by_cases h : r.id = todo_id
    · simp [replaceFirstById, h, hid]
    · have hb : (r.id == todo_id) = false := by simpa using h
      simp [replaceFirstById, hb, ih]

/-- The comparison `get_todos` sorts with is transitive. -/
theorem dateLe_trans (a b c : Todo) :
    decide (a.date ≤ b.date) → decide (b.date ≤ c.date) → decide (a.date ≤ c.date) := by
  intro hab hbc
  exact decide_eq_true (le_trans (of_decide_eq_true hab) (of_decide_eq_true hbc))

/-- The comparison `get_todos` sorts with is total. -/
theorem dateLe_total (a b : Todo) :
    (decide (a.date ≤ b.date) || decide (b.date ≤ a.date)) = true := by
  rcases le_total a.date b.date with h | h <;> simp [h]

/-- On a non-empty task list the insight endpoint skips the 400 branch and
forwards the filled template to the model, wrapping the reply or the raised
exception. -/
theorem get_task_insights_of_ne_nil (llm : String → Except String String)
    (tasks : List String) (h : tasks ≠ []) :
    get_task_insights llm tasks =
      match llm (priority_prompt (formatted_tasks tasks)) with
      | .ok content =>
        { response := .ok content, llmCalls := [priority_prompt (formatted_tasks tasks)] }
      | .error e =>
        { response := .serverError e, llmCalls := [priority_prompt (formatted_tasks tasks)] } := by
  cases tasks with
  | nil => exact absurd rfl h
  | cons a ts =>
    cases hl : llm (priority_prompt (formatted_tasks (a :: ts))) <;>
      simp [get_task_insights, get_task_priorities, hl]

end TodoApp

namespace TodoApp

/-! ### The claims -/

/-- Claim C1 (code bug): `DELETE /todos/all` is claimed to be handled by the
bulk-delete operation and to answer 200 with the prior row count; in the
code the per-id route is registered first, captures the segment `all`,
fails its integer coercion, and the request ends in a 422 validation error
with the table untouched, while no segment whatsoever routes to
`delete_all_todos`. -/
theorem deleteAll_request_hits_perId_route (db : DB) :
    handleDeleteRequest "all" db = (db, DeleteResponse.unprocessable) ∧
      ∀ s : String, routeDelete s ≠ DeleteHandler.deleteAll := by
  constructor
  · have h : parseNatSegment "all" = none := by decide
    simp [handleDeleteRequest, routeDelete, h]
  · intro s
    unfold routeDelete
    cases parseNatSegment s <;> simp

/-- Claim C2 (code bug): creating a Todo with `completed = true` in the body
is claimed to list it with `completed = true`; the code's `create_todo`
builds the row from `text` and `date` only, so the column default applies
and the created row is stored and listed with `completed = false`. -/
theorem create_with_completed_true_lists_false :
    (create_todo { text := "A", date := 1, completed := true } { rows := [], nextId := 1 }).2.completed
        = false ∧
      get_todos (create_todo { text := "A", date := 1, completed := true } { rows := [], nextId := 1 }).1
        = [{ id := 1, text := "A", date := 1, completed := false }] := by
  constructor
  · rfl
  · simp [create_todo, get_todos]

/-- Claim C3: `GET /todos/` returns exactly the stored rows — a permutation
of the table, whatever the insertion order was — arranged in ascending date
order. -/
theorem get_todos_sorted_by_date (db : DB) :
    (get_todos db).Perm db.rows ∧
      (get_todos db).Pairwise (fun a b => a.date ≤ b.date) := by
  constructor
  · exact List.mergeSort_perm db.rows _
  · have h := @List.sorted_mergeSort Todo (fun a b => decide (a.date ≤ b.date))
      dateLe_trans dateLe_total db.rows
    exact h.imp (fun hab => of_decide_eq_true hab)

/-- Claim C4: a PUT on an id absent from the table answers 404 with detail
"To-do not found" and returns the database state unchanged — in particular
no record is created. -/
theorem update_absent_id_404 (todo_id : Nat) (u : TodoUpdate) (db : DB)
    (h : ∀ t ∈ db.rows, t.id ≠ todo_id) :
    update_todo todo_id u db = (db, .error { status := 404, detail := "To-do not found" }) := by
  have hf : db.rows.find? (fun t => t.id == todo_id) = none := by
    rw [List.find?_eq_none]
    intro t ht
    simpa using h t ht
  simp [update_todo, hf]

/-- Witness for C4 at a concrete table and id. -/
theorem update_absent_id_404_witness :
    update_todo 2 { text := "x", date := 0, completed := false }
        { rows := [{ id := 1, text := "a", date := 0, completed := false }], nextId := 2 }
      = ({ rows := [{ id := 1, text := "a", date := 0, completed := false }], nextId := 2 },
         .error { status := 404, detail := "To-do not found" }) :=
  update_absent_id_404 2 { text := "x", date := 0, completed := false }
    { rows := [{ id := 1, text := "a", date := 0, completed := false }], nextId := 2 }
    (by decide)

/-- Claim C5: `POST /todos/insights` with an empty task list answers 400
"Task list cannot be empty" and sends nothing to the remote model. -/
theorem insights_empty_list_400 (llm : String → Except String String) :
    get_task_insights llm [] =
      { response := .badRequest "Task list cannot be empty", llmCalls := [] } := rfl

/-- Claim C6: for a non-empty task list, the one prompt sent to the remote
model is the fixed template filled with the bullet-point block: every task
on its own line behind a dash and a space, the lines joined by newlines. -/
theorem insights_prompt_is_bulleted_template (llm : String → Except String String)
    (tasks : List String) (h : tasks ≠ []) :
    (get_task_insights llm tasks).llmCalls =
      [priority_prompt (String.intercalate "\n" (tasks.map (fun task => "- " ++ task)))] := by
  rw [get_task_insights_of_ne_nil llm tasks h]
  cases hl : llm (priority_prompt (formatted_tasks tasks)) <;> simp [hl, formatted_tasks]

/-- Witness for C6 at a concrete task list and model. -/
theorem insights_prompt_is_bulleted_template_witness :
    (get_task_insights (fun _ => .ok "fine") ["Buy milk"]).llmCalls =
      [priority_prompt (String.intercalate "\n" (["Buy milk"].map (fun task => "- " ++ task)))] :=
  insights_prompt_is_bulleted_template (fun _ => .ok "fine") ["Buy milk"] (by decide)

/-- Claim C7: on a non-empty task list, when the remote call raises, the
endpoint answers 500 and the detail field is the stringified exception
itself. -/
theorem insights_upstream_error_500 (llm : String → Except String String)
    (tasks : List String) (e : String) (h : tasks ≠ [])
    (he : llm (priority_prompt (formatted_tasks tasks)) = .error e) :
    (get_task_insights llm tasks).response = .serverError e := by
  rw [get_task_insights_of_ne_nil llm tasks h, he]

/-- Witness for C7 at a concrete task list and a failing model. -/
theorem insights_upstream_error_500_witness :
    (get_task_insights (fun _ => .error "boom") ["a"]).response = .serverError "boom" :=
  insights_upstream_error_500 (fun _ => .error "boom") ["a"] "boom" (by decide) rfl

/-- Claim C8: a PUT on an existing id overwrites exactly the `text`, `date`
and `completed` fields of the matched row with the body's values, the
returned row keeps the row's id, the table apart from that row is
untouched, and the sequence of ids of the table — and the id generator —
are unchanged. -/
theorem update_existing_overwrites (todo_id : Nat) (u : TodoUpdate) (db : DB) (t : Todo)
    (h : db.rows.find? (fun r => r.id == todo_id) = some t) :
    (update_todo todo_id u db).2 =
        .ok { id := t.id, text := u.text, date := u.date, completed := u.completed } ∧
      t.id = todo_id ∧
      (update_todo todo_id u db).1.rows =
        replaceFirstById todo_id
          { id := t.id, text := u.text, date := u.date, completed := u.completed } db.rows ∧
      (update_todo todo_id u db).1.rows.map Todo.id = db.rows.map Todo.id ∧
      (update_todo todo_id u db).1.nextId = db.nextId := by
  have hid : t.id = todo_id := by
    have := List.find?_some h
    simpa using this
  refine ⟨?_, hid, ?_, ?_, ?_⟩
  · simp [update_todo, h]
  · simp [update_todo, h]
  · simp only [update_todo, h]
    exact replaceFirstById_map_id todo_id
      { id := t.id, text := u.text, date := u.date, completed := u.completed } hid db.rows
  · simp [update_todo, h]

/-- Witness for C8 at a concrete table, id and body. -/
theorem update_existing_overwrites_witness :
    (update_todo 1 { text := "new", date := 9, completed := true }
        { rows := [{ id := 1, text := "a", date := 0, completed := false }], nextId := 2 }).2 =
      .ok { id := 1, text := "new", date := 9, completed := true } :=
  (update_existing_overwrites 1 { text := "new", date := 9, completed := true }
    { rows := [{ id := 1, text := "a", date := 0, completed := false }], nextId := 2 }
    { id := 1, text := "a", date := 0, completed := false } (by decide)).1

/-- Claim C9: a PUT body with `text` and `date` but no `completed` field
passes validation — `completed` falls back to the declared default `False`
— and on an existing id the stored row ends with `completed = false`. -/
theorem put_body_missing_completed_accepted (tx : String) (d : Int) (todo_id : Nat)
    (db : DB) (t : Todo) (h : db.rows.find? (fun r => r.id == todo_id) = some t) :
    ∃ u : TodoUpdate,
      parseTodoUpdate { text := some tx, date := some d, completed := none } = .ok u ∧
        u.completed = false ∧
        (update_todo todo_id u db).2 = .ok { id := t.id, text := tx, date := d, completed := false } := by
  refine ⟨{ text := tx, date := d, completed := false }, rfl, rfl, ?_⟩
  simp [update_todo, h]

/-- Witness for C9 at a concrete table, id and body. -/
theorem put_body_missing_completed_accepted_witness :
    ∃ u : TodoUpdate,
      parseTodoUpdate { text := some "b", date := some 7, completed := none } = .ok u ∧
        u.completed = false ∧
        (update_todo 1 u
            { rows := [{ id := 1, text := "a", date := 0, completed := true }], nextId := 2 }).2 =
          .ok { id := 1, text := "b", date := 7, completed := false } :=
  put_body_missing_completed_accepted "b" 7 1
    { rows := [{ id := 1, text := "a", date := 0, completed := true }], nextId := 2 }
    { id := 1, text := "a", date := 0, completed := true } (by decide)

/-- Claim C10: a non-empty task list made only of empty strings passes the
emptiness check — the model is invoked exactly once and the response is
never the 400 rejection, which only the empty list itself receives. -/
theorem insights_blank_tasks_still_invoke (llm : String → Except String String)
    (tasks : List String) (hne : tasks ≠ []) (hblank : ∀ s ∈ tasks, s = "") :
    (get_task_insights llm tasks).llmCalls.length = 1 ∧
      ∀ d, (get_task_insights llm tasks).response ≠ .badRequest d := by
  rw [get_task_insights_of_ne_nil llm tasks hne]
  cases hl : llm (priority_prompt (formatted_tasks tasks)) <;> simp [hl]

/-- Witness for C10 at the concrete list holding one empty string. -/
theorem insights_blank_tasks_still_invoke_witness :
    ((get_task_insights (fun _ => .ok "fine") [""]).llmCalls.length = 1 ∧
      ∀ d, (get_task_insights (fun _ => .ok "fine") [""]).response ≠ .badRequest d) :=
  insights_blank_tasks_still_invoke (fun _ => .ok "fine") [""] (by decide)
    (by intro s hs; simpa using hs)

end TodoApp
